import Mathlib

/-!
# Verification of the pgsql_select_optimize query/connection layer

Shallow embedding, in Lean 4, of the read-path of `src/main.py` (a FastAPI
service over the `data_100k` PostgreSQL table) and of the bulk loader
`src/insert_data.py`.  Pure Python string manipulation is translated to
structurally recursive Lean functions over character lists; the database
is modelled as a list of rows; `raise HTTPException(...)` becomes the
error side of `Except`; FastAPI's declarative query-parameter validation
(`Query(ge=..., le=...)`) is modelled as an explicit range check that runs
before the handler body, returning a distinguished `paramInvalid` error
(FastAPI's HTTP 422 response).
-/

namespace DataApi

/-- Python `str.split(',')` on the character list: split at every comma,
keeping empty pieces (so `""` ↦ `[""]` and `","` ↦ `["", ""]`). -/
def splitCommaAux : List Char → List Char → List String
  | [], acc => [String.mk acc.reverse]
  | c :: rest, acc =>
    if c = ',' then String.mk acc.reverse :: splitCommaAux rest []
    else splitCommaAux rest (c :: acc)

/-- Python `str.split(',')`. -/
def splitComma (s : String) : List String := splitCommaAux s.data []

/-- Drop leading whitespace characters from a character list. -/
def dropLeadingSpace : List Char → List Char
  | [] => []
  | c :: cs => if c.isWhitespace then dropLeadingSpace cs else c :: cs

/-- Python `str.strip()`: remove leading and trailing whitespace. -/
def strip (s : String) : String :=
  String.mk ((dropLeadingSpace (dropLeadingSpace s.data).reverse).reverse)

/-- Lowercase one ASCII character, as Python `str.lower()` does on A-Z. -/
def lowerChar (c : Char) : Char :=
  if 'A' ≤ c ∧ c ≤ 'Z' then Char.ofNat (c.toNat + 32) else c

/-- Python `str.lower()`. -/
def lower (s : String) : String := String.mk (s.data.map lowerChar)

/-- `c.strip().lower()` — the normalization `main.py` applies to every
user-supplied column name before membership checking. -/
def normalizeName (c : String) : String := lower (strip c)

/-- Python `sep.join(parts)`. -/
def joinSep (sep : String) : List String → String
  | [] => ""
  | [x] => x
  | x :: y :: rest => x ++ sep ++ joinSep sep (y :: rest)

/-- The 26 attribute column names, `[chr(ord('a') + i) for i in range(26)]`
in `main.py`. -/
def attrNames : List String :=
  (List.range 26).map (fun i => String.mk [Char.ofNat (97 + i)])

/-- The allow-list used by `/data`'s projection:
`set(['id'] + [chr(ord('a') + i) for i in range(26)])`. -/
def validColumnsData : List String := "id" :: attrNames

/-- The allow-list used by `/data/search`'s column parameter:
`set([chr(ord('a') + i) for i in range(26)])` — no `'id'` here. -/
def validColumnsSearch : List String := attrNames

/-- Errors surfaced to the HTTP client.
`httpError status detail` models `raise HTTPException(status_code, detail)`;
`paramInvalid` models FastAPI's own rejection (HTTP 422) of a query
parameter that violates its declared `Query(ge=..., le=...)` bounds. -/
inductive ApiError where
  | httpError (status : Nat) (detail : String)
  | paramInvalid
deriving Repr, DecidableEq

deriving instance DecidableEq for Except

/-- A row of `data_100k`: the integer identity plus the integer attribute
columns a..z. -/
structure Row where
  id : Int
  attrs : List Int
deriving Repr, DecidableEq

/-- The loop `for col in requested_columns: if col not in valid_columns:
raise HTTPException(400, f"無效的欄位名稱: {col}")` from `get_data`
(`main.py` lines 200-202): succeeds only when every name is in the
allow-list, raising at the first invalid name scanning left to right. -/
def checkColumns (valid : List String) : List String → Except ApiError Unit
  | [] => .ok ()
  | c :: rest =>
    if valid.contains c then checkColumns valid rest
    else .error (.httpError 400 ("無效的欄位名稱: " ++ c))

/-- The `columns` handling of `get_data` (`main.py` lines 197-205):
`if columns:` is false for both `None` and the empty string, yielding
`select_columns = '*'`; otherwise the string is split on commas, each
piece is stripped and lowercased, checked against the allow-list, and
joined back with `', '`. -/
def selectColumnsOf (columns : Option String) : Except ApiError String :=
  match columns with
  | none => .ok "*"
  | some s =>
    if s = "" then .ok "*"
    else
      let requested := (splitComma s).map normalizeName
      match checkColumns validColumnsData requested with
      | .error e => .error e
      | .ok _ => .ok (joinSep ", " requested)

/-- Insert a row into a list sorted by `id` (helper for `ORDER BY id`). -/
def insertById (r : Row) : List Row → List Row
  | [] => [r]
  | x :: xs => if r.id ≤ x.id then r :: x :: xs else x :: insertById r xs

/-- `ORDER BY id`: stable sort of the table by the identity column. -/
def sortById : List Row → List Row
  | [] => []
  | x :: xs => insertById x (sortById xs)

/-- Response shape of `GET /data` (`main.py` lines 215-222), extended with
the statement text and the ordered bound-parameter list that were passed
to `cursor.execute` (timing and the pool flag are outside this model). -/
structure ListResponse where
  data : List Row
  count : Nat
  limit : Int
  offset : Int
  query : String
  params : List Int
deriving Repr, DecidableEq

/-- `GET /data` (`main.py` lines 183-224).  FastAPI first enforces
`limit: Query(ge=1, le=10000)` and `offset: Query(ge=0)` (else 422);
the handler then clamps `limit = min(limit, 10000)`, resolves the
projection, and executes
`SELECT <cols> FROM data_100k ORDER BY id LIMIT %s OFFSET %s`
with `(limit, offset)` bound. -/
def get_data (db : List Row) (limit offset : Int) (columns : Option String) :
    Except ApiError ListResponse :=
  if limit < 1 ∨ 10000 < limit then .error .paramInvalid
  else if offset < 0 then .error .paramInvalid
  else
    let lim := min limit 10000
    match selectColumnsOf columns with
    | .error e => .error e
    | .ok selectCols =>
      let rows := ((sortById db).drop offset.toNat).take lim.toNat
      .ok { data := rows
            count := rows.length
            limit := lim
            offset := offset
            query := "SELECT " ++ selectCols ++
              " FROM data_100k ORDER BY id LIMIT %s OFFSET %s"
            params := [lim, offset] }

/-- The condition/parameter assembly of `search_data`
(`main.py` lines 267-279), on the already-normalized column name:
if `exact_value` is present the single condition `<column> = %s` is
emitted and any range bounds are ignored; otherwise `<column> >= %s`
and/or `<column> <= %s` for whichever of min/max are present, with the
bound values collected in the same order. -/
def searchConditions (column : String) (min_value max_value exact_value : Option Int) :
    List String × List Int :=
  match exact_value with
  | some v => ([column ++ " = %s"], [v])
  | none =>
    let mnPart : List String × List Int :=
      match min_value with
      | some a => ([column ++ " >= %s"], [a])
      | none => ([], [])
    let mxPart : List String × List Int :=
      match max_value with
      | some b => ([column ++ " <= %s"], [b])
      | none => ([], [])
    (mnPart.1 ++ mxPart.1, mnPart.2 ++ mxPart.2)

/-- Index of an attribute column name a..z into `Row.attrs`. -/
def colIndex (c : String) : Nat :=
  match c.data with
  | ch :: _ => ch.toNat - 97
  | [] => 0

/-- Value of the named attribute column in a row. -/
def attrOf (r : Row) (c : String) : Int := r.attrs.getD (colIndex c) 0

/-- SQL semantics of the WHERE clause `searchConditions` assembles. -/
def rowMatches (c : String) (min_value max_value exact_value : Option Int) (r : Row) : Bool :=
  match exact_value with
  | some v => attrOf r c == v
  | none =>
    (match min_value with
     | some a => decide (a ≤ attrOf r c)
     | none => true) &&
    (match max_value with
     | some b => decide (attrOf r c ≤ b)
     | none => true)

/-- Response shape of `GET /data/search` (`main.py` lines 294-300), with
the executed statement text and ordered parameter list recorded. -/
structure SearchResponse where
  data : List Row
  count : Nat
  search_column : String
  query : String
  params : List Int
deriving Repr, DecidableEq

/-- `GET /data/search` (`main.py` lines 248-302).  FastAPI enforces
`limit: Query(ge=1, le=10000)` (else 422); the handler strips and
lowercases `column`, rejects names outside the 26-letter allow-list
(400 carrying the name), assembles the conditions, rejects an empty
condition list (400 "請提供搜尋條件") before touching the database, and
executes `SELECT * FROM data_100k WHERE <conds> ORDER BY id LIMIT %s`
with the condition values and then `limit` bound, in that order. -/
def search_data (db : List Row) (column : String)
    (min_value max_value exact_value : Option Int) (limit : Int) :
    Except ApiError SearchResponse :=
  if limit < 1 ∨ 10000 < limit then .error .paramInvalid
  else
    let col := normalizeName column
    if validColumnsSearch.contains col = false then
      .error (.httpError 400 ("無效的欄位名稱: " ++ col))
    else
      let cp := searchConditions col min_value max_value exact_value
      if cp.1.isEmpty then .error (.httpError 400 "請提供搜尋條件")
      else
        let rows :=
          (sortById (db.filter (rowMatches col min_value max_value exact_value))).take
            limit.toNat
        .ok { data := rows
              count := rows.length
              search_column := col
              query := "SELECT * FROM data_100k WHERE " ++ joinSep " AND " cp.1 ++
                " ORDER BY id LIMIT %s"
              params := cp.2 ++ [limit] }

/-- Response shape of `GET /data/all` (`main.py` lines 239-244). -/
structure AllResponse where
  data : List Row
  count : Nat
deriving Repr, DecidableEq

/-- `GET /data/all` (`main.py` lines 226-246):
`SELECT * FROM data_100k ORDER BY id`, no parameters, count = len(rows). -/
def get_all_data (db : List Row) : AllResponse :=
  let rows := sortById db
  { data := rows, count := rows.length }

/-- Response shape of `GET /data/{id}` (`main.py` lines 317-321). -/
structure ByIdResponse where
  data : Row
deriving Repr, DecidableEq

/-- `GET /data/{id}` (`main.py` lines 304-323):
`SELECT * FROM data_100k WHERE id = %s` with `fetchone()`; a missing row
(`if not row`) raises 404 with the id in the message. -/
def get_data_by_id (db : List Row) (i : Int) : Except ApiError ByIdResponse :=
  match (db.filter (fun r => r.id == i)).head? with
  | none => .error (.httpError 404 ("找不到 id=" ++ toString i ++ " 的資料"))
  | some row => .ok { data := row }

/-! ## Connection lifecycle (`get_db_connection`, `main.py` lines 112-130)

The context manager is modelled as a function of: the effective mode
(`pooled` = `USE_CONNECTION_POOL and connection_pool` is truthy, the same
condition the code tests at both acquisition and release), whether
acquisition succeeds, and what the body wrapped by `with` does.  The
returned event record counts acquisitions and the two kinds of release. -/

/-- What the code inside the `with get_db_connection() as conn:` block
does: return a value normally, raise `psycopg2.Error`, or raise any
other exception (e.g. the 404 `HTTPException` of `get_data_by_id`). -/
inductive BodyOutcome (α : Type) where
  | success (a : α)
  | pgError
  | otherError
deriving Repr, DecidableEq

/-- Outcome observed by the caller of the context-managed operation. -/
inductive ConnResult (α : Type) where
  | ok (a : α)
  | http500
  | reraised
deriving Repr, DecidableEq

/-- Counters of the connection-lifecycle events of one operation. -/
structure ConnEvents where
  acquired : Nat
  returnedToPool : Nat
  closed : Nat
deriving Repr, DecidableEq

/-- `get_db_connection` (`main.py` lines 112-130), traced step by step:
`conn = None`; in `try`, acquire from the pool (`getconn`) or open a new
session (`connect`) — an acquisition failure is a `psycopg2.Error`,
converted by the `except` clause into `HTTPException(500)` with `conn`
still `None`, so `finally` releases nothing.  After a successful
acquisition the body runs at the `yield`: a normal return releases once
in `finally`; a `psycopg2.Error` from the body becomes
`HTTPException(500)` and still releases once; any other exception
propagates unchanged and still releases once.  Release is `putconn`
in pooled mode and `close` in direct mode. -/
def get_db_connection (α : Type) (pooled acquireOk : Bool) (body : BodyOutcome α) :
    ConnResult α × ConnEvents :=
  if acquireOk = false then
    (.http500, ⟨0, 0, 0⟩)
  else
    let rel : ConnEvents := if pooled then ⟨1, 1, 0⟩ else ⟨1, 0, 1⟩
    match body with
    | .success a => (.ok a, rel)
    | .pgError => (.http500, rel)
    | .otherError => (.reraised, rel)

/-! ## Bulk loader (`insert_data.py`)

The loader writes `TOTAL_ROWS` synthetic rows in batches of `BATCH_SIZE`
(`execute_values` + `commit` per batch, then one remainder batch), and on
any exception rolls back the open transaction and re-raises.  The
database is abstracted to committed/pending row counts; batch `i` fails
iff `fails i` is true. -/

def TOTAL_ROWS : Nat := 100000

def BATCH_SIZE : Nat := 10000

/-- Committed rows and uncommitted (in-transaction) rows. -/
structure DbState where
  committed : Nat
  pending : Nat
deriving Repr, DecidableEq

/-- Sizes of the batches `insert_data` writes, in order:
`TOTAL_ROWS // BATCH_SIZE` full batches, then one remainder batch of
`TOTAL_ROWS % BATCH_SIZE` rows when that is positive
(`insert_data.py` lines 63-84). -/
def batchPlan (total batch : Nat) : List Nat :=
  (List.range (total / batch)).map (fun _ => batch) ++
    (if total % batch > 0 then [total % batch] else [])

/-- The batch loop: batch `i` of size `size` first writes `size` rows
into the open transaction (`execute_values`); on failure the exception
escapes with those rows still uncommitted, otherwise `conn.commit()`
makes everything pending durable.  The error value is the database
state at the moment the exception is raised. -/
def insertBatches (fails : Nat → Bool) : List Nat → Nat → DbState → Except DbState DbState
  | [], _, s => .ok s
  | size :: rest, i, s =>
    if fails i then .error { s with pending := s.pending + size }
    else insertBatches fails rest (i + 1)
      { committed := s.committed + s.pending + size, pending := 0 }

/-- Result of one run of the loader: whether an exception was re-raised
to the caller, and the final database state. -/
structure InsertResult where
  raised : Bool
  final : DbState
deriving Repr, DecidableEq

/-- `insert_data` (`insert_data.py` lines 42-105): run the batch plan
from an empty table; on success return normally; on any exception
`conn.rollback()` discards the pending rows and the error is re-raised
(`raise`) after the `finally` closes the connection. -/
def insert_data (fails : Nat → Bool) : InsertResult :=
  match insertBatches fails (batchPlan TOTAL_ROWS BATCH_SIZE) 0 ⟨0, 0⟩ with
  | .ok s => ⟨false, s⟩
  | .error s => ⟨true, { s with pending := 0 }⟩

/-! ## Helper lemmas -/

/-- The validation loop accepts exactly the lists all of whose names are
in the allow-list. -/
theorem checkColumns_ok_iff (valid cols : List String) :
    checkColumns valid cols = Except.ok () ↔ ∀ x ∈ cols, x ∈ valid := by
  induction cols with
  | nil => simp [checkColumns]
  | cons c rest ih =>
    by_cases h : c ∈ valid
    · simp [checkColumns, h, ih]
    · simp [checkColumns, h]

/-- The validation loop reports the first name (scanning left to right)
that is outside the allow-list. -/
theorem checkColumns_err_of_find (valid cols : List String) (c : String)
    (h : cols.find? (fun x => !valid.contains x) = some c) :
    checkColumns valid cols = .error (.httpError 400 ("無效的欄位名稱: " ++ c)) := by
  induction cols with
  | nil => simp at h
  | cons x rest ih =>
    by_cases hx : x ∈ valid
    · rw [List.find?_cons_of_neg _ (by simpa using hx)] at h
      simp [checkColumns, hx, ih h]
    · rw [List.find?_cons_of_pos _ (by simpa using hx)] at h
      injection h with h
      subst h
      simp [checkColumns, hx]

/-- Characterization of every successful `get_data` result: the
projection resolved, and the response is exactly the record the handler
builds (rows, count, clamped limit, statement text, bound parameters). -/
theorem get_data_ok (db : List Row) (l o : Int) (cols : Option String) (resp : ListResponse)
    (h : get_data db l o cols = .ok resp) :
    ∃ sc, selectColumnsOf cols = .ok sc ∧
      resp = { data := ((sortById db).drop o.toNat).take ((min l 10000).toNat),
               count := (((sortById db).drop o.toNat).take ((min l 10000).toNat)).length,
               limit := min l 10000, offset := o,
               query := "SELECT " ++ sc ++ " FROM data_100k ORDER BY id LIMIT %s OFFSET %s",
               params := [min l 10000, o] } := by
  unfold get_data at h
  split at h
  · exact absurd h (by simp)
  · split at h
    · exact absurd h (by simp)
    · split at h
      · exact absurd h (by simp)
      · rename_i sc heq
        refine ⟨sc, heq, ?_⟩
        simp only [Except.ok.injEq] at h
        exact h.symm

/-- Characterization of every successful `search_data` result. -/
theorem search_data_ok (db : List Row) (column : String) (mn mx ex : Option Int) (l : Int)
    (resp : SearchResponse) (h : search_data db column mn mx ex l = .ok resp) :
    resp = { data := (sortById (db.filter
               (rowMatches (normalizeName column) mn mx ex))).take l.toNat,
             count := ((sortById (db.filter
               (rowMatches (normalizeName column) mn mx ex))).take l.toNat).length,
             search_column := normalizeName column,
             query := "SELECT * FROM data_100k WHERE " ++
               joinSep " AND " (searchConditions (normalizeName column) mn mx ex).1 ++
               " ORDER BY id LIMIT %s",
             params := (searchConditions (normalizeName column) mn mx ex).2 ++ [l] } := by
  unfold search_data at h
  dsimp only at h
  split at h
  · exact absurd h (by simp)
  · split at h
    · exact absurd h (by simp)
    · split at h
      · exact absurd h (by simp)
      · simp only [Except.ok.injEq] at h
        exact h.symm

/-! ## Claims -/

/-- C1: every user-supplied column name (in `/data`'s columns list and
`/data/search`'s column parameter) is normalized (stripped and
lowercased) and then membership-checked against the fixed set of 26
attribute names, with `'id'` additionally allowed only for `/data`'s
projection; a name outside the set is rejected with a client-side 400
error carrying the offending name, and for a supplied list the error
names the first invalid name scanning left to right. -/
theorem C1_column_validation (db : List Row) (s column c : String)
    (mn mx ex : Option Int) :
    (validColumnsData = "id" :: attrNames ∧ validColumnsSearch = attrNames ∧
      attrNames.length = 26 ∧ "id" ∉ validColumnsSearch) ∧
    (s ≠ "" →
      ((splitComma s).map normalizeName).find? (fun x => !(validColumnsData.contains x)) =
        some c →
      get_data db 100 0 (some s) = .error (.httpError 400 ("無效的欄位名稱: " ++ c))) ∧
    ((∀ x ∈ (splitComma s).map normalizeName, x ∈ validColumnsData) →
      ∃ resp, get_data db 100 0 (some s) = .ok resp) ∧
    (normalizeName column ∉ validColumnsSearch →
      search_data db column mn mx ex 100 =
        .error (.httpError 400 ("無效的欄位名稱: " ++ normalizeName column))) := by
  refine ⟨⟨rfl, rfl, by decide, by decide⟩, ?_, ?_, ?_⟩
  · intro hs hf
    have hsel : selectColumnsOf (some s) =
        .error (.httpError 400 ("無效的欄位名稱: " ++ c)) := by
      simp only [selectColumnsOf, if_neg hs]
      rw [checkColumns_err_of_find _ _ _ hf]
    simp [get_data, hsel]
  · intro hall
    by_cases hs : s = ""
    · subst hs
      exact ⟨_, rfl⟩
    · have hok : checkColumns validColumnsData ((splitComma s).map normalizeName) =
          .ok () := (checkColumns_ok_iff _ _).mpr hall
      have hsel : selectColumnsOf (some s) =
          .ok (joinSep ", " ((splitComma s).map normalizeName)) := by
        simp only [selectColumnsOf, if_neg hs, hok]
      refine ⟨{ data := ((sortById db).drop (0 : Int).toNat).take ((min (100 : Int) 10000).toNat),
                count := (((sortById db).drop (0 : Int).toNat).take
                  ((min (100 : Int) 10000).toNat)).length,
                limit := min (100 : Int) 10000,
                offset := 0,
                query := "SELECT " ++ joinSep ", " ((splitComma s).map normalizeName) ++
                  " FROM data_100k ORDER BY id LIMIT %s OFFSET %s",
                params := [min (100 : Int) 10000, 0] }, ?_⟩
      simp [get_data, hsel]
  · intro hcol
    have hc : validColumnsSearch.contains (normalizeName column) = false := by
      simpa using hcol
    simp only [search_data]
    rw [if_neg (by norm_num), if_pos hc]

/-- Witness for C1: the list " A ,bogus" is rejected naming `bogus`
(the first invalid name after normalization), and `/data/search`
rejects `" ID "` because `id` is not a search column. -/
theorem C1_column_validation_witness :
    get_data ([] : List Row) 100 0 (some " A ,bogus") =
      .error (.httpError 400 ("無效的欄位名稱: " ++ "bogus")) ∧
    search_data ([] : List Row) " ID " none none (some 5) 100 =
      .error (.httpError 400 ("無效的欄位名稱: " ++ normalizeName " ID ")) := by
  constructor
  · exact (C1_column_validation [] " A ,bogus" "x" "bogus" none none none).2.1
      (by decide) (by decide)
  · exact (C1_column_validation [] "x" " ID " "x" none none (some 5)).2.2.2 (by decide)

/-- C3 counterexample: requesting `/data?limit=999999` does NOT succeed
with the limit clamped to 10000 — FastAPI's declared bound
`Query(ge=1, le=10000)` rejects the request with a parameter-validation
error (HTTP 422) before the handler's `min(limit, 10000)` ever runs. -/
theorem C3_counterexample :
    get_data ([] : List Row) 999999 0 none = .error .paramInvalid := rfl

/-- C3 (amended): a `/data` request whose limit exceeds 10000 is
rejected with FastAPI's parameter-validation error (422), never clamped;
on every successful request the in-handler clamp `min(limit, 10000)` is
the identity, so the response's limit equals the requested limit and
never exceeds 10000. -/
theorem C3_limit_rejected (db : List Row) (l o : Int) (cols : Option String) :
    (10000 < l → get_data db l o cols = .error .paramInvalid) ∧
    (∀ resp, get_data db l o cols = .ok resp → resp.limit = l ∧ resp.limit ≤ 10000) := by
  constructor
  · intro hl
    simp [get_data, hl]
  · intro resp h
    unfold get_data at h
    split at h
    · exact absurd h (by simp)
    · split at h
      · exact absurd h (by simp)
      · split at h
        · exact absurd h (by simp)
        · rename_i hcond hoff x sc heq
          simp only [Except.ok.injEq] at h
          subst h
          dsimp only
          omega

/-- Witness for C3 (amended): limit 10001 is rejected with 422, and a
successful limit-7 request reports limit 7. -/
theorem C3_limit_rejected_witness :
    get_data ([] : List Row) 10001 0 none = .error .paramInvalid ∧
    ({ data := [], count := 0, limit := 7, offset := 0,
       query := "SELECT * FROM data_100k ORDER BY id LIMIT %s OFFSET %s",
       params := [7, 0] } : ListResponse).limit = 7 := by
  refine ⟨(C3_limit_rejected [] 10001 0 none).1 (by norm_num), ?_⟩
  exact ((C3_limit_rejected [] 7 0 none).2 _ (by decide)).1

/-- C7 counterexample: a `/data` request that explicitly supplies an
empty columns projection (`columns=`) is NOT rejected — `if columns:`
is false for the empty string, so the request succeeds as the
degenerate all-columns query `SELECT *`. -/
theorem C7_counterexample :
    get_data ([] : List Row) 100 0 (some "") =
      .ok { data := [], count := 0, limit := 100, offset := 0,
            query := "SELECT * FROM data_100k ORDER BY id LIMIT %s OFFSET %s",
            params := [100, 0] } := by decide

/-- C7 (amended): an explicitly empty columns string is treated exactly
like omitting the parameter — the degenerate all-columns query, not a
`ValidationError`; only a non-empty columns value whose comma-split,
normalized pieces contain an invalid (possibly empty) name is rejected,
e.g. `columns=","`. -/
theorem C7_empty_projection (db : List Row) (l o : Int) :
    get_data db l o (some "") = get_data db l o none ∧
    (1 ≤ l → l ≤ 10000 → 0 ≤ o →
      get_data db l o (some ",") =
        .error (.httpError 400 ("無效的欄位名稱: " ++ ""))) := by
  constructor
  · rfl
  · intro h1 h2 h3
    have hsel : selectColumnsOf (some ",") =
        .error (.httpError 400 ("無效的欄位名稱: " ++ "")) := by decide
    rw [get_data, if_neg (by omega), if_neg (by omega)]
    simp [hsel]

/-- Witness for C7 (amended) at concrete inputs. -/
theorem C7_empty_projection_witness :
    get_data ([] : List Row) 7 0 (some "") = get_data ([] : List Row) 7 0 none ∧
    get_data ([] : List Row) 7 0 (some ",") =
      .error (.httpError 400 ("無效的欄位名稱: " ++ "")) := by
  refine ⟨(C7_empty_projection [] 7 0).1, ?_⟩
  exact (C7_empty_projection [] 7 0).2 (by norm_num) (by norm_num) (by norm_num)

/-- C2: every list query binds limit and offset as the two trailing
parameters (the parameter list is exactly `[limit, offset]`, with the
clamped limit); every search query appends limit as the final bound
parameter after the condition parameters; and the statement text is
invariant under the requested limit/offset — the numeric values enter
only the parameter list, never the SQL string. -/
theorem C2_bound_parameters (db : List Row) (l l2 o o2 : Int) (cols : Option String)
    (column : String) (mn mx ex : Option Int) (sl sl2 : Int) :
    (∀ resp, get_data db l o cols = .ok resp →
      resp.params = [min l 10000, o] ∧
      ∃ sc, selectColumnsOf cols = .ok sc ∧
        resp.query = "SELECT " ++ sc ++ " FROM data_100k ORDER BY id LIMIT %s OFFSET %s") ∧
    (∀ r1 r2, get_data db l o cols = .ok r1 → get_data db l2 o2 cols = .ok r2 →
      r1.query = r2.query) ∧
    (∀ resp, search_data db column mn mx ex sl = .ok resp →
      resp.params = (searchConditions (normalizeName column) mn mx ex).2 ++ [sl]) ∧
    (∀ r1 r2, search_data db column mn mx ex sl = .ok r1 →
      search_data db column mn mx ex sl2 = .ok r2 → r1.query = r2.query) := by
  refine ⟨?_, ?_, ?_, ?_⟩
  · intro resp h
    obtain ⟨sc, hsc, rfl⟩ := get_data_ok db l o cols resp h
    exact ⟨rfl, sc, hsc, rfl⟩
  · intro r1 r2 h1 h2
    obtain ⟨sc1, hsc1, rfl⟩ := get_data_ok _ _ _ _ _ h1
    obtain ⟨sc2, hsc2, rfl⟩ := get_data_ok _ _ _ _ _ h2
    rw [hsc1] at hsc2
    injection hsc2 with hsc2
    rw [hsc2]
  · intro resp h
    rw [search_data_ok _ _ _ _ _ _ _ h]
  · intro r1 r2 h1 h2
    rw [search_data_ok _ _ _ _ _ _ _ h1, search_data_ok _ _ _ _ _ _ _ h2]

/-- Witness for C2 at a concrete list request: `/data?limit=5` binds
`[5, 0]` as parameters. -/
theorem C2_bound_parameters_witness :
    ({ data := [], count := 0, limit := 5, offset := 0,
       query := "SELECT * FROM data_100k ORDER BY id LIMIT %s OFFSET %s",
       params := [5, 0] } : ListResponse).params = [min (5 : Int) 10000, 0] :=
  ((C2_bound_parameters [] 5 6 0 1 none "a" none none none 7 8).1 _ (by decide)).1

/-- C4: when `exact_value` is supplied the WHERE clause is exactly the
single bound condition `<column> = %s` and any simultaneously supplied
min/max bounds are ignored; without `exact_value` the clause holds
`<column> >= %s` and/or `<column> <= %s` for whichever bounds are
present, joined with AND, parameters in that order (then limit). -/
theorem C4_search_conditions (db : List Row) (column : String) (mn mx : Option Int)
    (ex a b l : Int) :
    (∀ resp, search_data db column mn mx (some ex) l = .ok resp →
      resp.query = "SELECT * FROM data_100k WHERE " ++
        (normalizeName column ++ " = %s") ++ " ORDER BY id LIMIT %s" ∧
      resp.params = [ex, l]) ∧
    (∀ resp, search_data db column (some a) (some b) none l = .ok resp →
      resp.query = "SELECT * FROM data_100k WHERE " ++
        (normalizeName column ++ " >= %s" ++ " AND " ++ (normalizeName column ++ " <= %s")) ++
        " ORDER BY id LIMIT %s" ∧
      resp.params = [a, b, l]) ∧
    (∀ resp, search_data db column (some a) none none l = .ok resp →
      resp.query = "SELECT * FROM data_100k WHERE " ++
        (normalizeName column ++ " >= %s") ++ " ORDER BY id LIMIT %s" ∧
      resp.params = [a, l]) ∧
    (∀ resp, search_data db column none (some b) none l = .ok resp →
      resp.query = "SELECT * FROM data_100k WHERE " ++
        (normalizeName column ++ " <= %s") ++ " ORDER BY id LIMIT %s" ∧
      resp.params = [b, l]) := by
  refine ⟨?_, ?_, ?_, ?_⟩ <;> intro resp h <;>
    rw [search_data_ok _ _ _ _ _ _ _ h] <;>
    exact ⟨by simp [searchConditions, joinSep, String.append_assoc], by simp [searchConditions]⟩

/-- Witness for C4: with `exact_value=5` and both range bounds also
supplied, the executed statement is the single equality condition and
the parameters are `[5, limit]` — the bounds 1 and 9 are ignored. -/
theorem C4_search_conditions_witness :
    ({ data := [], count := 0, search_column := "a",
       query := "SELECT * FROM data_100k WHERE a = %s ORDER BY id LIMIT %s",
       params := [5, 100] } : SearchResponse).query =
      "SELECT * FROM data_100k WHERE " ++ (normalizeName "a" ++ " = %s") ++
        " ORDER BY id LIMIT %s" :=
  (((C4_search_conditions [] "a" (some 1) (some 9) 5 0 0 100).1) _ (by decide)).1

/-- C5: a search request with a valid column but none of exact_value,
min_value, max_value supplied fails with the client-side 400 error
"請提供搜尋條件" ("no search condition"); in the source the raise
precedes `with get_db_connection()`, so no query is executed. -/
theorem C5_no_condition (db : List Row) (column : String) (l : Int)
    (h1 : 1 ≤ l) (h2 : l ≤ 10000)
    (hcol : normalizeName column ∈ validColumnsSearch) :
    search_data db column none none none l = .error (.httpError 400 "請提供搜尋條件") := by
  simp only [search_data]
  rw [if_neg (by omega), if_neg (by simp [hcol]),
    if_pos (show (searchConditions (normalizeName column) none none none).1.isEmpty = true
      from rfl)]

/-- Witness for C5: searching column "a" with no condition fails. -/
theorem C5_no_condition_witness :
    search_data ([] : List Row) "a" none none none 100 =
      .error (.httpError 400 "請提供搜尋條件") :=
  C5_no_condition [] "a" 100 (by norm_num) (by norm_num) (by decide)

/-- C6: on every exit path of the scoped connection acquisition — normal
return, a `psycopg2.Error` raised by the body, or any other exception —
a successfully acquired handle is released exactly once (returned to the
pool in pooled mode, closed in direct mode, never both and never twice),
and a failed acquisition releases nothing. -/
theorem C6_connection_release (α : Type) (pooled acquireOk : Bool) (body : BodyOutcome α) :
    ((get_db_connection α pooled acquireOk body).2.returnedToPool +
      (get_db_connection α pooled acquireOk body).2.closed =
      (get_db_connection α pooled acquireOk body).2.acquired) ∧
    (acquireOk = true → (get_db_connection α pooled acquireOk body).2.acquired = 1) ∧
    (acquireOk = false → (get_db_connection α pooled acquireOk body).2.acquired = 0) ∧
    (pooled = true → (get_db_connection α pooled acquireOk body).2.closed = 0) ∧
    (pooled = false → (get_db_connection α pooled acquireOk body).2.returnedToPool = 0) := by
  cases pooled <;> cases acquireOk <;> cases body <;> simp [get_db_connection]

/-- Witness for C6: a pooled operation whose body returns normally
acquires once and releases once. -/
theorem C6_connection_release_witness :
    ((get_db_connection Nat true true (.success 0)).2.returnedToPool +
      (get_db_connection Nat true true (.success 0)).2.closed =
      (get_db_connection Nat true true (.success 0)).2.acquired) ∧
    (get_db_connection Nat true true (.success 0)).2.acquired = 1 :=
  ⟨(C6_connection_release Nat true true (.success 0)).1,
    (C6_connection_release Nat true true (.success 0)).2.1 rfl⟩

/-- C8: `/data/{id}` yields the 404 NotFound error (distinguished by its
status from the 400 validation errors and 500 server errors) exactly
when no row carries the requested identity, and every successful
response contains exactly one row whose id equals the requested one
(and which is a row of the table). -/
theorem C8_lookup_by_id (db : List Row) (i : Int) :
    ((∀ r ∈ db, r.id ≠ i) →
      get_data_by_id db i =
        .error (.httpError 404 ("找不到 id=" ++ toString i ++ " 的資料"))) ∧
    (∀ resp, get_data_by_id db i = .ok resp → resp.data.id = i ∧ resp.data ∈ db) := by
  constructor
  · intro hall
    have hnil : db.filter (fun r => r.id == i) = [] := by
      rw [List.filter_eq_nil_iff]
      intro r hr
      simpa using hall r hr
    simp [get_data_by_id, hnil]
  · intro resp h
    unfold get_data_by_id at h
    split at h
    · exact absurd h (by simp)
    · rename_i row hrow
      simp only [Except.ok.injEq] at h
      subst h
      have hmem : row ∈ db.filter (fun r => r.id == i) :=
        List.mem_of_mem_head? (by simp [hrow])
      refine ⟨?_, List.mem_of_mem_filter hmem⟩
      have := List.of_mem_filter hmem
      simpa using this

/-- Witness for C8: id 2 is missing from a one-row table (404); id 1 is
found and the returned row carries id 1. -/
theorem C8_lookup_by_id_witness :
    get_data_by_id [({ id := 1, attrs := [] } : Row)] 2 =
      .error (.httpError 404 ("找不到 id=" ++ toString (2 : Int) ++ " 的資料")) ∧
    (({ data := { id := 1, attrs := [] } } : ByIdResponse).data.id = 1 ∧
      ({ data := { id := 1, attrs := [] } } : ByIdResponse).data ∈
        [({ id := 1, attrs := [] } : Row)]) :=
  ⟨(C8_lookup_by_id [⟨1, []⟩] 2).1 (by decide),
    (C8_lookup_by_id [⟨1, []⟩] 1).2 _ (by decide)⟩

/-- A successful run of the batch loop adds exactly the planned number
of rows, and (for a nonempty plan) finishes with everything committed. -/
theorem insertBatches_ok_spec (fails : Nat → Bool) (plan : List Nat) :
    ∀ i s s', insertBatches fails plan i s = .ok s' →
      s'.committed + s'.pending = s.committed + s.pending + plan.sum ∧
      (plan ≠ [] → s'.pending = 0) := by
  induction plan with
  | nil =>
    intro i s s' h
    simp only [insertBatches, Except.ok.injEq] at h
    subst h
    simp
  | cons size rest ih =>
    intro i s s' h
    simp only [insertBatches] at h
    split at h
    · exact absurd h (by simp)
    · obtain ⟨hsum, hpend⟩ := ih (i + 1) _ _ h
      constructor
      · dsimp at hsum
        simp only [List.sum_cons]
        omega
      · intro _
        by_cases hr : rest = []
        · subst hr
          simp only [insertBatches, Except.ok.injEq] at h
          rw [← h]
        · exact hpend hr

/-- A failed run of the batch loop (over a plan of positive batch sizes,
starting with nothing pending) aborts with the failing batch still
uncommitted and with strictly fewer rows committed than planned. -/
theorem insertBatches_err_spec (fails : Nat → Bool) (plan : List Nat) :
    ∀ i s sErr, (∀ x ∈ plan, 0 < x) → s.pending = 0 →
      insertBatches fails plan i s = .error sErr →
      0 < sErr.pending ∧ sErr.committed + sErr.pending ≤ s.committed + plan.sum := by
  induction plan with
  | nil =>
    intro i s sErr hpos hp h
    simp [insertBatches] at h
  | cons size rest ih =>
    intro i s sErr hpos hp h
    simp only [insertBatches] at h
    split at h
    · simp only [Except.error.injEq] at h
      subst h
      have hsize : 0 < size := hpos size (by simp)
      dsimp
      omega
    · obtain ⟨h1, h2⟩ := ih (i + 1) _ _ (fun x hx => hpos x (by simp [hx])) rfl h
      refine ⟨h1, ?_⟩
      dsimp at h2 ⊢
      omega

/-- C9: on any batch failure the Bulk Loader rolls back the open
transaction (nothing is left uncommitted) and re-raises, ending with
strictly fewer than `TOTAL_ROWS` rows committed; when every batch
succeeds it commits exactly `TOTAL_ROWS` rows (the full batches of
`BATCH_SIZE` plus the remainder batch encoded in `batchPlan`). -/
theorem C9_bulk_loader (fails : Nat → Bool) :
    (insert_data fails).final.pending = 0 ∧
    ((insert_data fails).raised = false →
      (insert_data fails).final.committed = TOTAL_ROWS) ∧
    ((insert_data fails).raised = true →
      (insert_data fails).final.committed < TOTAL_ROWS) := by
  have hplansum : (batchPlan TOTAL_ROWS BATCH_SIZE).sum = TOTAL_ROWS := by decide
  cases hrun : insertBatches fails (batchPlan TOTAL_ROWS BATCH_SIZE) 0 ⟨0, 0⟩ with
  | ok s =>
    obtain ⟨hsum, hpend⟩ := insertBatches_ok_spec fails _ 0 ⟨0, 0⟩ s hrun
    have hp0 : s.pending = 0 := hpend (by decide)
    simp only [insert_data, hrun]
    refine ⟨hp0, fun _ => ?_, fun h => Bool.noConfusion h⟩
    rw [hplansum] at hsum
    dsimp at hsum
    omega
  | error s =>
    obtain ⟨hp, hle⟩ := insertBatches_err_spec fails _ 0 ⟨0, 0⟩ s (by decide) rfl hrun
    simp only [insert_data, hrun]
    refine ⟨trivial, fun h => Bool.noConfusion h, fun _ => ?_⟩
    rw [hplansum] at hle
    dsimp at hle ⊢
    omega

/-- Witness for C9: with no batch failing the loader commits exactly
100000 rows; with batch 3 failing it rolls back and re-raises. -/
theorem C9_bulk_loader_witness :
    (insert_data (fun _ => false)).final.committed = TOTAL_ROWS ∧
    (insert_data (fun i => decide (i = 3))).final.pending = 0 ∧
    (insert_data (fun i => decide (i = 3))).raised = true :=
  ⟨(C9_bulk_loader (fun _ => false)).2.1 (by decide),
    (C9_bulk_loader (fun i => decide (i = 3))).1, by decide⟩

/-- C10: in every successful response from `/data`, `/data/all` and
`/data/search`, the count field equals the number of row objects in that
same response's data array. -/
theorem C10_count_is_length (db : List Row) (l o : Int) (cols : Option String)
    (column : String) (mn mx ex : Option Int) (sl : Int) :
    (∀ resp, get_data db l o cols = .ok resp → resp.count = resp.data.length) ∧
    ((get_all_data db).count = (get_all_data db).data.length) ∧
    (∀ resp, search_data db column mn mx ex sl = .ok resp →
      resp.count = resp.data.length) := by
  refine ⟨?_, rfl, ?_⟩
  · intro resp h
    obtain ⟨sc, hsc, rfl⟩ := get_data_ok _ _ _ _ _ h
    rfl
  · intro resp h
    rw [search_data_ok _ _ _ _ _ _ _ h]

/-- Witness for C10: a limit-1 request against a three-row table reports
count 1 — the number of returned rows, not the table's total of 3. -/
theorem C10_count_is_length_witness :
    ({ data := [({ id := 1, attrs := [] } : Row)], count := 1, limit := 1, offset := 0,
       query := "SELECT * FROM data_100k ORDER BY id LIMIT %s OFFSET %s",
       params := [1, 0] } : ListResponse).count =
      ({ data := [({ id := 1, attrs := [] } : Row)], count := 1, limit := 1, offset := 0,
         query := "SELECT * FROM data_100k ORDER BY id LIMIT %s OFFSET %s",
         params := [1, 0] } : ListResponse).data.length :=
  (C10_count_is_length [⟨1, []⟩, ⟨2, []⟩, ⟨3, []⟩] 1 0 none "a" none none none 1).1 _
    (by decide)

end DataApi
